import Mathlib

/-!
Verification of the Airflow DAG `raw_from_api_to_s3`
(file `dags/raw_from_api_to_s3.py`).

The DAG runs a single Python task, `get_and_transfer_api_data_to_s3`,
that derives a date interval from the Airflow context, builds one DuckDB
SQL script that reads a remote CSV from the USGS API and copies it to an
S3 (MinIO) parquet object, executes that script on an in-memory DuckDB
connection, closes the connection, and logs a start and a success line.

The embedding below models:
  * the scheduler-supplied timestamps (`pendulum` datetimes, of which only
    the calendar-date fields are observable through `format "YYYY-MM-DD"`);
  * the Airflow context dict (the two interval keys the code reads, plus
    an opaque remainder);
  * the module-level configuration (Airflow Variables, DAG arguments);
  * the exact strings the task builds (remote URL, target path, SQL text,
    log messages);
  * the task body as a sequence of steps under Python exception
    semantics: an uncaught exception in a step skips every later step of
    the function and propagates to the caller.
-/

namespace RawFromApiToS3

/-- A calendar timestamp as handed to the task by the scheduler
(a `pendulum` datetime). Only the calendar-date fields are relevant:
the code observes the timestamps solely through `format "YYYY-MM-DD")`. -/
structure DateTime where
  year : Nat
  month : Nat
  day : Nat
deriving DecidableEq

/-- Decimal digit character for `n < 10` (codepoint 48 is `0`). -/
def digitChar (n : Nat) : Char := Char.ofNat (48 + n)

/-- Zero-padded four-digit decimal rendering of a `pendulum` year field.
`pendulum` datetimes carry years 1..9999, on which this agrees with the
`YYYY` format token. -/
def pad4 (n : Nat) : String :=
  ⟨[digitChar (n / 1000 % 10), digitChar (n / 100 % 10),
    digitChar (n / 10 % 10), digitChar (n % 10)]⟩

/-- Zero-padded two-digit decimal rendering of a month or day field
(the `MM` and `DD` format tokens). -/
def pad2 (n : Nat) : String :=
  ⟨[digitChar (n / 10 % 10), digitChar (n % 10)]⟩

/-- Model of `pendulum`'s `dt.format("YYYY-MM-DD")` on a valid datetime. -/
def formatYYYYMMDD (d : DateTime) : String :=
  pad4 d.year ++ "-" ++ pad2 d.month ++ "-" ++ pad2 d.day

/-- A `pendulum`-representable calendar date (the library supports years
1..9999). -/
def ValidPendulumDate (d : DateTime) : Prop :=
  1 ≤ d.year ∧ d.year ≤ 9999 ∧ 1 ≤ d.month ∧ d.month ≤ 12 ∧ 1 ≤ d.day ∧ d.day ≤ 31

instance (d : DateTime) : Decidable (ValidPendulumDate d) := by
  unfold ValidPendulumDate; infer_instance

/-- Chronological key of a calendar date (dates compare lexicographically
by year, month, day). -/
def dateKey (d : DateTime) : Nat :=
  d.year * 10000 + d.month * 100 + d.day

/-- The Airflow task context: the two interval keys the code reads
(`data_interval_start`, `data_interval_end`) plus the remainder of the
context dict, which the code never touches. -/
structure Context where
  data_interval_start : DateTime
  data_interval_end : DateTime
  other : String → Option String

/-- A valid execution interval: both endpoints are representable dates and
the start date precedes the end date. -/
def ValidInterval (c : Context) : Prop :=
  ValidPendulumDate c.data_interval_start ∧ ValidPendulumDate c.data_interval_end ∧
    dateKey c.data_interval_start < dateKey c.data_interval_end

instance (c : Context) : Decidable (ValidInterval c) := by
  unfold ValidInterval; infer_instance

/-- `def get_dates(**context)`: format `data_interval_start` and
`data_interval_end` as `YYYY-MM-DD` and return the pair
`(start_date, end_date)`. -/
def get_dates (context : Context) : String × String :=
  let start_date := formatYYYYMMDD context.data_interval_start
  let end_date := formatYYYYMMDD context.data_interval_end
  (start_date, end_date)

/-- Module constant `LAYER = "raw"`. -/
def LAYER : String := "raw"

/-- Module constant `SOURCE = "earthquake"`. -/
def SOURCE : String := "earthquake"

/-- The two Airflow Variables fetched at module load:
`ACCESS_KEY = Variable.get("access_key")`,
`SECRET_KEY = Variable.get("secret_key")`. -/
structure Variables where
  access_key : String
  secret_key : String
deriving DecidableEq

/-- A single-quote character as a string (codepoint 39), used when
rendering the SQL text. -/
def apos : String := String.mk [Char.ofNat 39]

/-- The remote USGS URL interpolated into `read_csv_auto(...)`:
the fixed base endpoint with `start_date` and `end_date` substituted into
the `starttime` and `endtime` query parameters. -/
def remoteUrl (start_date end_date : String) : String :=
  "https://earthquake.usgs.gov/fdsnws/event/1/query?format=csv&starttime="
    ++ start_date ++ "&endtime=" ++ end_date

/-- The remote URL up to and including `&endtime=`: everything determined
by `start_date` alone. -/
def remoteUrlStem (start_date : String) : String :=
  "https://earthquake.usgs.gov/fdsnws/event/1/query?format=csv&starttime="
    ++ start_date ++ "&endtime="

/-- The target object path interpolated into `COPY ... TO`:
`s3://prod/{LAYER}/{SOURCE}/{start_date}/{start_date}_00-00-00.gz.parquet`. -/
def targetPath (start_date : String) : String :=
  "s3://prod/" ++ LAYER ++ "/" ++ SOURCE ++ "/" ++ start_date ++ "/"
    ++ start_date ++ "_00-00-00.gz.parquet"

/-- The session-configuration half of the SQL script passed to `con.sql`:
timezone, httpfs install/load, and the five S3 settings. Depends only on
the module-level credentials, not on the interval. -/
def sessionSetupSql (v : Variables) : String :=
  "-" ++ "-sql\n"
    ++ "        SET TIMEZONE=" ++ apos ++ "UTC" ++ apos ++ ";\n"
    ++ "        INSTALL httpfs;\n"
    ++ "        LOAD httpfs;\n"
    ++ "        SET s3_url_style = " ++ apos ++ "path" ++ apos ++ ";\n"
    ++ "        SET s3_endpoint = " ++ apos ++ "minio:9000" ++ apos ++ ";\n"
    ++ "        SET s3_access_key_id = " ++ apos ++ v.access_key ++ apos ++ ";\n"
    ++ "        SET s3_secret_access_key = " ++ apos ++ v.secret_key ++ apos ++ ";\n"
    ++ "        SET s3_use_ssl = FALSE;\n"
    ++ "\n"

/-- Text of the COPY clause before the remote URL. -/
def copySqlA : String :=
  "        COPY\n"
    ++ "        (\n"
    ++ "            SELECT\n"
    ++ "                *\n"
    ++ "            FROM\n"
    ++ "                read_csv_auto(" ++ apos

/-- Text of the COPY clause between the remote URL and the target path. -/
def copySqlB : String :=
  apos ++ ") AS res\n" ++ "        ) TO " ++ apos

/-- Text of the COPY clause after the target path. -/
def copySqlC : String :=
  apos ++ ";\n" ++ "\n        "

/-- The COPY half of the SQL script: read the remote CSV, write the
parquet object. Contains exactly one remote source URL and one storage
target path. -/
def copySql (start_date end_date : String) : String :=
  copySqlA ++ remoteUrl start_date end_date ++ copySqlB
    ++ targetPath start_date ++ copySqlC

/-- The full f-string passed to `con.sql` (lines 85-103 of the source). -/
def sqlStatement (v : Variables) (start_date end_date : String) : String :=
  sessionSetupSql v ++ copySql start_date end_date

/-- The start log line: `f"💻 Start load for dates: {start_date}/{end_date}"`. -/
def startLogMsg (context : Context) : String :=
  "💻 Start load for dates: " ++ (get_dates context).1 ++ "/" ++ (get_dates context).2

/-- The success log line: `f"✅ Download for date success: {start_date}"`. -/
def successLogMsg (context : Context) : String :=
  "✅ Download for date success: " ++ (get_dates context).1

/-- The storage object path a run with the given context targets. -/
def runTargetPath (context : Context) : String :=
  targetPath (get_dates context).1

/-- One externally visible action of the task body. -/
inductive Effect where
  /-- A `logging.info` call with the given message. -/
  | logInfo (msg : String) : Effect
  /-- `duckdb.connect()`: open the ephemeral in-memory session. -/
  | duckdbConnect : Effect
  /-- `con.sql(statement)`: execute the SQL script (the script performs
  the remote HTTP read and the S3 write). -/
  | duckdbSql (statement : String) : Effect
  /-- `con.close()`: release the session. -/
  | duckdbClose : Effect
deriving DecidableEq

/-- The observable state accumulated by one invocation: the effects in
program order, and whether `con.close()` was executed. -/
structure World where
  effects : List Effect
  closed : Bool
deriving DecidableEq

/-- The world before the task body runs. -/
def initWorld : World := { effects := [], closed := false }

/-- Append an effect to the trace. -/
def emit (e : Effect) (w : World) : World :=
  { w with effects := w.effects ++ [e] }

/-- A Python statement sequence under exception semantics: it transforms
the world and either returns normally or propagates an exception
(carried as its message string). -/
def Task : Type := World → World × Except String Unit

/-- Sequencing of two statements with no enclosing `try`: if the first
raises, the second never runs and the exception propagates unchanged. -/
def seq (a b : Task) : Task := fun w =>
  match a w with
  | (w2, Except.ok ()) => b w2
  | (w2, Except.error e) => (w2, Except.error e)

/-- `logging.info(msg)`: always succeeds. -/
def logInfoStep (msg : String) : Task := fun w =>
  (emit (Effect.logInfo msg) w, Except.ok ())

/-- `con = duckdb.connect()`: open the in-memory session. -/
def connectStep : Task := fun w =>
  (emit Effect.duckdbConnect w, Except.ok ())

/-- Outcome of the one fallible step, `con.sql(...)`: the statement either
succeeds or raises an exception (network error, malformed CSV,
storage-write error) with some message. -/
inductive StepOutcome where
  | ok : StepOutcome
  | raises (err : String) : StepOutcome
deriving DecidableEq

/-- `con.sql(statement)`: attempt the script; on failure the exception
propagates. -/
def sqlStep (statement : String) (outcome : StepOutcome) : Task := fun w =>
  match outcome with
  | StepOutcome.ok => (emit (Effect.duckdbSql statement) w, Except.ok ())
  | StepOutcome.raises e => (emit (Effect.duckdbSql statement) w, Except.error e)

/-- `con.close()`: release the session. -/
def closeStep : Task := fun w =>
  ({ emit Effect.duckdbClose w with closed := true }, Except.ok ())

/-- `def get_and_transfer_api_data_to_s3(**context)`, lines 61-107 of the
source, as the straight-line sequence it is (no `try`, no `with`, no
`finally`):
log start, connect, run the SQL script, close, log success.
`outcome` is the environment's verdict on the one fallible step. -/
def get_and_transfer_api_data_to_s3
    (v : Variables) (outcome : StepOutcome) (context : Context) : Task :=
  let dates := get_dates context
  let start_date := dates.1
  let end_date := dates.2
  seq (logInfoStep ("💻 Start load for dates: " ++ start_date ++ "/" ++ end_date))
    (seq connectStep
      (seq (sqlStep (sqlStatement v start_date end_date) outcome)
        (seq closeStep
          (logInfoStep ("✅ Download for date success: " ++ start_date)))))

/-- Run the task from the initial world. -/
def runTask (v : Variables) (outcome : StepOutcome) (context : Context) :
    World × Except String Unit :=
  get_and_transfer_api_data_to_s3 v outcome context initWorld

/-- The messages of the `logging.info` effects of a trace, in order. -/
def logMessages (es : List Effect) : List String :=
  es.filterMap fun e =>
    match e with
    | Effect.logInfo m => some m
    | _ => none

/-- Module constant `OWNER`. -/
def OWNER : String := "almas.maksutbekov"

/-- Module constant `DAG_ID`. -/
def DAG_ID : String := "raw_from_api_to_s3"

/-- Module constant `SHORT_DESCRIPTION`. -/
def SHORT_DESCRIPTION : String :=
  "Загрузка raw данных из USGS в S3 (MinIO) через DuckDB"

/-- The `args` dict passed as `default_args` (lines 40-46). -/
structure DefaultArgs where
  owner : String
  start_date : DateTime
  catchup : Bool
  retries : Nat
  retry_delay_hours : Nat
deriving DecidableEq

/-- `args = {...}`: owner, start date 2025-05-01 (Europe/Moscow), catchup,
3 retries, 1-hour retry delay. -/
def args : DefaultArgs :=
  { owner := OWNER
    start_date := { year := 2025, month := 5, day := 1 }
    catchup := true
    retries := 3
    retry_delay_hours := 1 }

/-- The keyword arguments of the `DAG(...)` constructor (lines 110-119). -/
structure DagConfig where
  dag_id : String
  schedule_interval : String
  default_args : DefaultArgs
  tags : List String
  description : String
  concurrency : Nat
  max_active_tasks : Nat
  max_active_runs : Nat
deriving DecidableEq

/-- The DAG as declared in the source. -/
def dag : DagConfig :=
  { dag_id := DAG_ID
    schedule_interval := "0 5 * * *"
    default_args := args
    tags := ["s3", "raw"]
    description := SHORT_DESCRIPTION
    concurrency := 1
    max_active_tasks := 1
    max_active_runs := 1 }

/-- Split a character list into the space-separated fields of a cron
expression (codepoint 32 is the space). -/
def fieldsOf (cs : List Char) : List (List Char) :=
  match cs with
  | [] => [[]]
  | c :: rest =>
    let r := fieldsOf rest
    if c = Char.ofNat 32 then [] :: r
    else
      match r with
      | [] => [[c]]
      | f :: fs => (c :: f) :: fs

/-- A five-field cron expression that fires once daily at a fixed time:
fixed numeric minute and hour, wildcard day-of-month, month and
day-of-week. -/
def isDailyFixedTimeCron (s : String) : Bool :=
  match fieldsOf s.data with
  | [m, h, dom, mon, dow] =>
    !m.isEmpty && m.all Char.isDigit && !h.isEmpty && h.all Char.isDigit &&
      dom == ['*'] && mon == ['*'] && dow == ['*']
  | _ => false

/-- Ten characters shaped `DDDD-DD-DD` with `D` a decimal digit: the
`YYYY-MM-DD` layout. -/
def isYYYYMMDD (s : String) : Bool :=
  match s.data with
  | [y1, y2, y3, y4, h1, m1, m2, h2, d1, d2] =>
    y1.isDigit && y2.isDigit && y3.isDigit && y4.isDigit && h1 == '-' &&
      m1.isDigit && m2.isDigit && h2 == '-' && d1.isDigit && d2.isDigit
  | _ => false

/-- Test credentials for concrete witnesses. -/
def vTest : Variables := { access_key := "test-access-key", secret_key := "test-secret-key" }

/-- A concrete context for the interval 2025-05-01 .. 2025-05-02 with an
empty remainder dict. -/
def ctxA : Context :=
  { data_interval_start := { year := 2025, month := 5, day := 1 }
    data_interval_end := { year := 2025, month := 5, day := 2 }
    other := fun _ => none }

/-- Same interval as `ctxA` but a different remainder dict. -/
def ctxB : Context :=
  { data_interval_start := { year := 2025, month := 5, day := 1 }
    data_interval_end := { year := 2025, month := 5, day := 2 }
    other := fun k => some k }

/-- Same start date as `ctxA` but end date 2025-05-03. -/
def ctxC : Context :=
  { data_interval_start := { year := 2025, month := 5, day := 1 }
    data_interval_end := { year := 2025, month := 5, day := 3 }
    other := fun _ => none }

/-- A digit character is recognised as a digit. -/
theorem digitChar_isDigit : ∀ n : Nat, n < 10 → (digitChar n).isDigit = true := by
  decide

/-- The digit character of `n % 10` is recognised as a digit. -/
theorem digitChar_mod_isDigit (n : Nat) : (digitChar (n % 10)).isDigit = true :=
  digitChar_isDigit (n % 10) (Nat.mod_lt _ (by norm_num))

/-- Every date the formatter produces has the ten-character `YYYY-MM-DD`
layout. -/
theorem formatYYYYMMDD_isYYYYMMDD (d : DateTime) :
    isYYYYMMDD (formatYYYYMMDD d) = true := by
  have h : (formatYYYYMMDD d).data =
      [digitChar (d.year / 1000 % 10), digitChar (d.year / 100 % 10),
       digitChar (d.year / 10 % 10), digitChar (d.year % 10), '-',
       digitChar (d.month / 10 % 10), digitChar (d.month % 10), '-',
       digitChar (d.day / 10 % 10), digitChar (d.day % 10)] := by
    simp [formatYYYYMMDD, pad4, pad2, String.data_append]
  unfold isYYYYMMDD
  rw [h]
  simp [digitChar_mod_isDigit]

/-- C1. The target storage object path is a pure function of
(`LAYER = "raw"`, `SOURCE = "earthquake"`, `start_date`): for start date
2025-05-01 it is exactly
`s3://prod/raw/earthquake/2025-05-01/2025-05-01_00-00-00.gz.parquet`, and
any two runs whose contexts yield the same `start_date` string target the
identical path, so a rerun overwrites the same object. -/
theorem claimC1_target_path_deterministic :
    LAYER = "raw" ∧ SOURCE = "earthquake" ∧
    targetPath "2025-05-01" =
      "s3://prod/raw/earthquake/2025-05-01/2025-05-01_00-00-00.gz.parquet" ∧
    ∀ c1 c2 : Context, (get_dates c1).1 = (get_dates c2).1 →
      runTargetPath c1 = runTargetPath c2 := by
  refine ⟨rfl, rfl, rfl, fun c1 c2 h => ?_⟩
  unfold runTargetPath
  rw [h]

/-- Witness for C1: the contexts `ctxA` and `ctxC` share the start date
2025-05-01 and target the identical path. -/
theorem claimC1_target_path_deterministic_witness :
    (get_dates ctxA).1 = (get_dates ctxC).1 ∧ runTargetPath ctxA = runTargetPath ctxC :=
  ⟨rfl, claimC1_target_path_deterministic.2.2.2 ctxA ctxC rfl⟩

/-- C2. The remote URL is the fixed USGS base endpoint with `start_date`
and `end_date` substituted verbatim into the `starttime` and `endtime`
query parameters; for the interval 2025-05-01 .. 2025-05-02 it equals
`https://earthquake.usgs.gov/fdsnws/event/1/query?format=csv&starttime=2025-05-01&endtime=2025-05-02`. -/
theorem claimC2_remote_url :
    remoteUrl "2025-05-01" "2025-05-02" =
      "https://earthquake.usgs.gov/fdsnws/event/1/query?format=csv&starttime=2025-05-01&endtime=2025-05-02" ∧
    ∀ start_date end_date : String,
      remoteUrl start_date end_date =
        "https://earthquake.usgs.gov/fdsnws/event/1/query?format=csv&starttime="
          ++ start_date ++ "&endtime=" ++ end_date :=
  ⟨rfl, fun _ _ => rfl⟩

/-- C3 counterexample. The claim "`con.close()` is reached regardless of
whether the fetch-and-copy statement succeeds or raises" is false: the
source has no `try`/`finally` or context manager around the connection,
so when `con.sql` raises (here: at credentials `vTest`, context `ctxA`,
error `HTTP Error 500`) the session is never closed. -/
theorem claimC3_close_not_guaranteed :
    ¬ ∀ o : StepOutcome, (runTask vTest o ctxA).1.closed = true :=
  fun h => absurd (h (StepOutcome.raises "HTTP Error 500")) (by decide)

/-- C3 (amended). `con.close()` is reached exactly on the success path:
if the fetch-and-copy statement succeeds the session is released, and if
it raises the exception propagates without the session being closed. -/
theorem claimC3_close_only_on_success :
    ∀ (v : Variables) (c : Context),
      (runTask v StepOutcome.ok c).1.closed = true ∧
      ∀ e : String, (runTask v (StepOutcome.raises e) c).1.closed = false :=
  fun _ _ => ⟨rfl, fun _ => rfl⟩

/-- C5. The task catches nothing: on the success path it returns normally,
and when the fetch-and-copy statement raises, the very exception raised
propagates out of the task unchanged — recovery is left to the external
scheduler. -/
theorem claimC5_exceptions_propagate :
    ∀ (v : Variables) (c : Context),
      (runTask v StepOutcome.ok c).2 = Except.ok () ∧
      ∀ e : String, (runTask v (StepOutcome.raises e) c).2 = Except.error e :=
  fun _ _ => ⟨rfl, fun _ => rfl⟩

/-- C6. For every valid interval, `get_dates` returns the pair of the
interval's start and end timestamps formatted as calendar-date strings,
and both strings have the `YYYY-MM-DD` layout. -/
theorem claimC6_get_dates_format :
    ∀ c : Context, ValidInterval c →
      get_dates c =
        (formatYYYYMMDD c.data_interval_start, formatYYYYMMDD c.data_interval_end) ∧
      isYYYYMMDD (get_dates c).1 = true ∧ isYYYYMMDD (get_dates c).2 = true :=
  fun _ _ => ⟨rfl, formatYYYYMMDD_isYYYYMMDD _, formatYYYYMMDD_isYYYYMMDD _⟩

/-- Witness for C6 at the concrete interval 2025-05-01 .. 2025-05-02. -/
theorem claimC6_get_dates_format_witness :
    ValidInterval ctxA ∧
      (get_dates ctxA =
        (formatYYYYMMDD ctxA.data_interval_start, formatYYYYMMDD ctxA.data_interval_end) ∧
      isYYYYMMDD (get_dates ctxA).1 = true ∧ isYYYYMMDD (get_dates ctxA).2 = true) :=
  ⟨by decide, claimC6_get_dates_format ctxA (by decide)⟩

/-- C7. A successful run returns normally and its effect trace is exactly:
the start log line, the session open, the single SQL statement (which
contains the one remote read URL and the one storage write path), the
session close, and the success log line. In particular exactly two
`logging.info` lines are emitted, the first prefixed `💻` and containing
`start_date`, the second prefixed `✅` and containing `start_date`. -/
theorem claimC7_success_effects :
    ∀ (v : Variables) (c : Context),
      (runTask v StepOutcome.ok c).2 = Except.ok () ∧
      (runTask v StepOutcome.ok c).1.effects =
        [Effect.logInfo (startLogMsg c), Effect.duckdbConnect,
         Effect.duckdbSql (sessionSetupSql v ++
           (copySqlA ++ remoteUrl (get_dates c).1 (get_dates c).2 ++ copySqlB
             ++ targetPath (get_dates c).1 ++ copySqlC)),
         Effect.duckdbClose, Effect.logInfo (successLogMsg c)] ∧
      logMessages (runTask v StepOutcome.ok c).1.effects =
        [startLogMsg c, successLogMsg c] ∧
      startLogMsg c =
        "💻" ++ (" Start load for dates: " ++ ((get_dates c).1 ++ ("/" ++ (get_dates c).2))) ∧
      successLogMsg c = "✅" ++ (" Download for date success: " ++ (get_dates c).1) := by
  intro v c
  refine ⟨rfl, rfl, rfl, ?_, rfl⟩
  unfold startLogMsg
  rw [String.append_assoc, String.append_assoc]
  rfl

/-- C8. The DAG's scheduling configuration: a daily cron trigger at a
fixed time (`0 5 * * *`), at most one active run, and 3 retries with a
1-hour delay. -/
theorem claimC8_scheduling_config :
    isDailyFixedTimeCron dag.schedule_interval = true ∧
    dag.schedule_interval = "0 5 * * *" ∧
    dag.max_active_runs = 1 ∧ dag.concurrency = 1 ∧ dag.max_active_tasks = 1 ∧
    dag.default_args.retries = 3 ∧ dag.default_args.retry_delay_hours = 1 :=
  ⟨by decide, rfl, rfl, rfl, rfl, rfl, rfl⟩

/-- C9. Noninterference in the invocation context: two contexts that agree
on `data_interval_start` and `data_interval_end` yield the same derived
dates, the same SQL statement (hence the same remote URL and storage
path), the same log lines, and an identical run — the rest of the context
dict never influences the task. -/
theorem claimC9_context_noninterference :
    ∀ (v : Variables) (o : StepOutcome) (c1 c2 : Context),
      c1.data_interval_start = c2.data_interval_start →
      c1.data_interval_end = c2.data_interval_end →
      get_dates c1 = get_dates c2 ∧
      sqlStatement v (get_dates c1).1 (get_dates c1).2 =
        sqlStatement v (get_dates c2).1 (get_dates c2).2 ∧
      startLogMsg c1 = startLogMsg c2 ∧ successLogMsg c1 = successLogMsg c2 ∧
      runTask v o c1 = runTask v o c2 := by
  intro v o c1 c2 h1 h2
  have hd : get_dates c1 = get_dates c2 := by
    unfold get_dates
    rw [h1, h2]
  refine ⟨hd, by rw [hd], by unfold startLogMsg; rw [hd],
    by unfold successLogMsg; rw [hd], ?_⟩
  unfold runTask get_and_transfer_api_data_to_s3
  rw [hd]

/-- Witness for C9: `ctxA` and `ctxB` share the interval but have
different remainder dicts, and the runs coincide. -/
theorem claimC9_context_noninterference_witness :
    ctxA.data_interval_start = ctxB.data_interval_start ∧
    ctxA.data_interval_end = ctxB.data_interval_end ∧
    runTask vTest StepOutcome.ok ctxA = runTask vTest StepOutcome.ok ctxB :=
  ⟨rfl, rfl,
    (claimC9_context_noninterference vTest StepOutcome.ok ctxA ctxB rfl rfl).2.2.2.2⟩

/-- C10. Frame property of the interval's end: two contexts with the same
start timestamp target the identical storage path and emit the identical
success log line; the SQL script's session-configuration half depends only
on the credentials; and the end date reaches the statement only as the
final `endtime=` suffix of the remote URL. -/
theorem claimC10_end_date_frame :
    ∀ c1 c2 : Context,
      c1.data_interval_start = c2.data_interval_start →
      runTargetPath c1 = runTargetPath c2 ∧
      successLogMsg c1 = successLogMsg c2 ∧
      (∀ v : Variables, ∃ tail1 tail2 : String,
        sqlStatement v (get_dates c1).1 (get_dates c1).2 = sessionSetupSql v ++ tail1 ∧
        sqlStatement v (get_dates c2).1 (get_dates c2).2 = sessionSetupSql v ++ tail2) ∧
      remoteUrl (get_dates c1).1 (get_dates c1).2 =
        remoteUrlStem (get_dates c1).1 ++ (get_dates c1).2 := by
  intro c1 c2 h
  have hs : (get_dates c1).1 = (get_dates c2).1 := by
    unfold get_dates
    rw [h]
  exact ⟨by unfold runTargetPath; rw [hs],
    by unfold successLogMsg; rw [hs],
    fun v => ⟨copySql (get_dates c1).1 (get_dates c1).2,
      copySql (get_dates c2).1 (get_dates c2).2, rfl, rfl⟩,
    rfl⟩

/-- Witness for C10: `ctxA` and `ctxC` share start date 2025-05-01 but
have different end dates, and both runs write to the same object path. -/
theorem claimC10_end_date_frame_witness :
    ctxA.data_interval_start = ctxC.data_interval_start ∧
    runTargetPath ctxA = runTargetPath ctxC :=
  ⟨rfl, (claimC10_end_date_frame ctxA ctxC rfl).1⟩

end RawFromApiToS3
